import Mathlib

/-!
Shallow embedding of `src/ColumnTestMAIN.py`: a validated single-value
"column property" cell (`ColumnProperty`) with read-only / nullability /
runtime-type checks, a modified flag, and a change notification relayed
through an owning `RowItem` to a container sink.

Python runtime values relevant to the program are modelled by `PyVal`,
runtime classes by `PyType` (with Python's `bool <: int` subclassing, so
that `isinstance` genuinely differs from type equality).  Exceptions are
modelled with `Except`; the sink's received calls are modelled as an
explicit list of notification payloads produced by a call.
-/

/-- Runtime classes that occur in the embedding, mirroring Python's
`type(v)` values (including `NoneType`). -/
inductive PyType where
  | noneType
  | bool
  | int
  | str
deriving DecidableEq

/-- Python runtime values used by the program under test. -/
inductive PyVal where
  | none
  | bool (b : Bool)
  | int (n : Int)
  | str (s : String)
deriving DecidableEq

/-- Runtime type of a value: Python's `type(v)`. -/
def typeOf : PyVal → PyType
  | PyVal.none => PyType.noneType
  | PyVal.bool _ => PyType.bool
  | PyVal.int _ => PyType.int
  | PyVal.str _ => PyType.str

/-- Subclass relation on the modelled classes: reflexive, and Python's
`bool` is a subclass of `int`. -/
def PyType.isSubclass (t u : PyType) : Bool :=
  decide (t = u ∨ (t = PyType.bool ∧ u = PyType.int))

/-- Python's `isinstance(v, t)`: the runtime type of `v` is `t` or a
subclass of `t`. -/
def isinstance (v : PyVal) (t : PyType) : Bool :=
  PyType.isSubclass (typeOf v) t

/-- Printable class name, mirroring `t.__name__` in the error message of
`set_value`. -/
def PyType.name : PyType → String
  | PyType.noneType => "NoneType"
  | PyType.bool => "bool"
  | PyType.int => "int"
  | PyType.str => "str"

/-- Mock row item (the owner): `RowItem.__init__` stores a container
reference and a row id.  Identities of the container and the row are
modelled as numbers; the back-wiring of its property list is performed by
`RowItem.init` below. -/
structure RowItem where
  container : Nat
  row_id : Nat
deriving DecidableEq

/-- Payload handed to the container sink `item_change_notification`: the
code passes the `RowItem` itself, but the sink's parameter is untyped
(`item: Any`), so a cell id is also representable as a payload. -/
inductive NotifArg where
  | row (r : RowItem)
  | cell (property_id : String)
deriving DecidableEq

/-- Observable effect of `RowItem.notify_change`: one call
`container.item_change_notification(self)` whose payload is the row item
itself. -/
def RowItem.notify_change (self : RowItem) : List NotifArg :=
  [NotifArg.row self]

/-- State of a `ColumnProperty` object: the fields assigned by
`ColumnProperty.__init__`. -/
structure ColumnProperty where
  property_id : String
  read_only : Bool
  read_only_change_allowed : Bool
  nullable : Bool
  value : PyVal
  type : PyType
  modified : Bool
  owner : Option RowItem
deriving DecidableEq

/-- The `ValueError` raised by `ColumnProperty.__init__`. -/
inductive InitError where
  | valueError (msg : String)
deriving DecidableEq

/-- The exceptions raised by `ColumnProperty.set_value`. -/
inductive SetError where
  | readOnlyError (msg : String)
  | notNullableError (msg : String)
  | typeError (msg : String)
deriving DecidableEq

/-- Embedding of `ColumnProperty.__init__`: rejects a falsy (empty)
`property_id` and an absent (`None`) `value_type`, otherwise stores all
fields, with `modified = False` and `owner = None`. -/
def ColumnProperty.init (property_id : String) (read_only : Bool)
    (read_only_change_allowed : Bool) (nullable : Bool)
    (default_value : PyVal) (value_type : Option PyType) :
    Except InitError ColumnProperty :=
  if property_id = "" then
    Except.error (InitError.valueError "Property ID cannot be None")
  else
    match value_type with
    | Option.none => Except.error (InitError.valueError "Type cannot be None")
    | Option.some t =>
        Except.ok
          { property_id := property_id
            read_only := read_only
            read_only_change_allowed := read_only_change_allowed
            nullable := nullable
            value := default_value
            type := t
            modified := false
            owner := Option.none }

/-- Embedding of `ColumnProperty.get_value`. -/
def ColumnProperty.get_value (self : ColumnProperty) : PyVal :=
  self.value

/-- Embedding of `ColumnProperty.is_modified`. -/
def ColumnProperty.is_modified (self : ColumnProperty) : Bool :=
  self.modified

/-- Embedding of `ColumnProperty.set_owner` (may assign `None`). -/
def ColumnProperty.set_owner (self : ColumnProperty) (owner : Option RowItem) :
    ColumnProperty :=
  { self with owner := owner }

/-- Embedding of `ColumnProperty.set_value`: the three checks in source
order (read-only, nullability, `isinstance`), then the assignment of
`value` and `modified` followed by the owner notification when an owner is
attached (`if self._owner:` — a `RowItem` object is always truthy).
Returns the new object state and the list of sink calls made. -/
def ColumnProperty.set_value (self : ColumnProperty) (value : PyVal) :
    Except SetError (ColumnProperty × List NotifArg) :=
  if self.read_only = true then
    Except.error (SetError.readOnlyError "Property is read-only")
  else if self.nullable = false ∧ value = PyVal.none then
    Except.error (SetError.notNullableError "Property is not nullable")
  else if value ≠ PyVal.none ∧ isinstance value self.type = false then
    Except.error (SetError.typeError ("Value must be of type " ++ self.type.name))
  else
    let updated : ColumnProperty := { self with value := value, modified := true }
    match self.owner with
    | Option.some r => Except.ok (updated, r.notify_change)
    | Option.none => Except.ok (updated, [])

/-- Exception semantics of a `set_value` call as seen by the caller: when
the call raises, the object is unchanged and no notification was
delivered; when it succeeds, the new state and the delivered
notifications.  Returns (state after the call, sink calls, raised
exception if any). -/
def set_value_step (self : ColumnProperty) (value : PyVal) :
    ColumnProperty × List NotifArg × Option SetError :=
  match self.set_value value with
  | Except.ok (cp, ns) => (cp, ns, Option.none)
  | Except.error e => (self, [], Option.some e)

/-- Embedding of `RowItem.__init__`: builds the row item and attaches it
as owner of every supplied property (calls `set_owner` on each). -/
def RowItem.init (container : Nat) (row_id : Nat)
    (properties : List ColumnProperty) : RowItem × List ColumnProperty :=
  let self : RowItem := { container := container, row_id := row_id }
  (self, properties.map (fun p => p.set_owner (Option.some self)))

/-- Cell invariant claimed by the spec: `value` is `None` only if the
cell is nullable, and a non-`None` value is an instance of the declared
type. -/
def cell_inv (cp : ColumnProperty) : Prop :=
  (cp.value = PyVal.none → cp.nullable = true) ∧
  (cp.value ≠ PyVal.none → isinstance cp.value cp.type = true)

/-- The cell of the test scenarios: `('NAME', read_only=False,
read_only_change_allowed=True, nullable=True, default='Ville', str)`. -/
def nameCell : ColumnProperty :=
  { property_id := "NAME"
    read_only := false
    read_only_change_allowed := true
    nullable := true
    value := PyVal.str "Ville"
    type := PyType.str
    modified := false
    owner := Option.none }

/-- A concrete owner row item. -/
def row0 : RowItem := { container := 0, row_id := 7 }

/-- The test cell with `row0` attached as owner. -/
def nameCellOwned : ColumnProperty := nameCell.set_owner (Option.some row0)

/-- An instance check succeeds when the runtime type is exactly the
declared type. -/
theorem isinstance_of_typeOf_eq (x : PyVal) (t : PyType) (h : typeOf x = t) :
    isinstance x t = true := by
  simp [isinstance, PyType.isSubclass, h]

/-- C1: on a writable nullable cell, `set_value` with a value of exactly
the declared runtime type succeeds; `get_value` then returns it,
`is_modified` is true, and with an owner attached the sink receives
exactly one call whose payload is that owner row item (not the cell). -/
theorem set_value_success_spec (cp : ColumnProperty) (x : PyVal)
    (hro : cp.read_only = false) (hnul : cp.nullable = true)
    (hty : typeOf x = cp.type) :
    ∃ cp2 ns, cp.set_value x = Except.ok (cp2, ns) ∧
      cp2.get_value = x ∧ cp2.is_modified = true ∧
      (∀ r, cp.owner = Option.some r → ns = [NotifArg.row r]) ∧
      (cp.owner = Option.none → ns = []) := by
  have hinst := isinstance_of_typeOf_eq x cp.type hty
  cases hown : cp.owner with
  | some r =>
      refine ⟨{ cp with value := x, modified := true }, [NotifArg.row r], ?_, rfl, rfl, ?_, ?_⟩
      · simp [ColumnProperty.set_value, hro, hnul, hinst, hown, RowItem.notify_change]
      · intro r' hr'; injection hr' with h; rw [h]
      · intro h; simp at h
  | none =>
      refine ⟨{ cp with value := x, modified := true }, [], ?_, rfl, rfl, ?_, ?_⟩
      · simp [ColumnProperty.set_value, hro, hnul, hinst, hown]
      · intro r' hr'; simp at hr'
      · intro _; rfl

/-- Witness for C1 at the test scenario: `setValue('Kalle')` on the owned
`NAME` cell. -/
theorem set_value_success_spec_witness :
    ∃ cp2 ns, nameCellOwned.set_value (PyVal.str "Kalle") = Except.ok (cp2, ns) ∧
      cp2.get_value = PyVal.str "Kalle" ∧ cp2.is_modified = true ∧
      (∀ r, nameCellOwned.owner = Option.some r → ns = [NotifArg.row r]) ∧
      (nameCellOwned.owner = Option.none → ns = []) :=
  set_value_success_spec nameCellOwned (PyVal.str "Kalle") rfl rfl rfl

/-- C2: `set_value` on a read-only cell raises `ReadOnlyError` for every
argument, and the call leaves the cell unchanged (same `value`, same
`modified`) with zero sink notifications. -/
theorem set_value_read_only_spec (cp : ColumnProperty) (x : PyVal)
    (hro : cp.read_only = true) :
    set_value_step cp x =
      (cp, [], Option.some (SetError.readOnlyError "Property is read-only")) := by
  simp [set_value_step, ColumnProperty.set_value, hro]

/-- Witness for C2: the read-only variant of the test cell rejects
`setValue('Kalle')` unchanged. -/
theorem set_value_read_only_spec_witness :
    set_value_step { nameCell with read_only := true } (PyVal.str "Kalle") =
      ({ nameCell with read_only := true }, [],
        Option.some (SetError.readOnlyError "Property is read-only")) :=
  set_value_read_only_spec { nameCell with read_only := true } (PyVal.str "Kalle") rfl

/-- C3: `set_value(None)` on a writable non-nullable cell raises
`NotNullableError`, leaves the cell unchanged and delivers zero
notifications. -/
theorem set_value_not_nullable_spec (cp : ColumnProperty)
    (hro : cp.read_only = false) (hnul : cp.nullable = false) :
    set_value_step cp PyVal.none =
      (cp, [], Option.some (SetError.notNullableError "Property is not nullable")) := by
  simp [set_value_step, ColumnProperty.set_value, hro, hnul]

/-- Witness for C3: the non-nullable variant of the test cell rejects
`setValue(None)` unchanged. -/
theorem set_value_not_nullable_spec_witness :
    set_value_step { nameCell with nullable := false } PyVal.none =
      ({ nameCell with nullable := false }, [],
        Option.some (SetError.notNullableError "Property is not nullable")) :=
  set_value_not_nullable_spec { nameCell with nullable := false } rfl rfl

/-- C4: `set_value` with a non-`None` value whose runtime type is neither
the declared type nor a subclass raises `TypeError` with the declared
type's name, leaves the cell unchanged and delivers zero notifications. -/
theorem set_value_type_mismatch_spec (cp : ColumnProperty) (x : PyVal)
    (hro : cp.read_only = false) (hx : x ≠ PyVal.none)
    (hty : isinstance x cp.type = false) :
    set_value_step cp x =
      (cp, [],
        Option.some (SetError.typeError ("Value must be of type " ++ cp.type.name))) := by
  have hnul : ¬(cp.nullable = false ∧ x = PyVal.none) := fun h => hx h.2
  simp [set_value_step, ColumnProperty.set_value, hro, hnul, hx, hty]

/-- Witness for C4: assigning the integer `42` to the `str`-typed test
cell raises `TypeError` and changes nothing. -/
theorem set_value_type_mismatch_spec_witness :
    set_value_step nameCell (PyVal.int 42) =
      (nameCell, [],
        Option.some (SetError.typeError ("Value must be of type " ++ nameCell.type.name))) :=
  set_value_type_mismatch_spec nameCell (PyVal.int 42) rfl (by decide) (by decide)

/-- C5: the read-only check precedes the nullability and type checks: a
read-only non-nullable cell raises `ReadOnlyError` (not
`NotNullableError`) on `set_value(None)`, and a read-only cell raises
`ReadOnlyError` (not `TypeError`) on an ill-typed argument. -/
theorem set_value_check_order (cp : ColumnProperty) (x : PyVal)
    (hro : cp.read_only = true) :
    (cp.nullable = false →
      cp.set_value PyVal.none =
        Except.error (SetError.readOnlyError "Property is read-only")) ∧
    (x ≠ PyVal.none → isinstance x cp.type = false →
      cp.set_value x =
        Except.error (SetError.readOnlyError "Property is read-only")) := by
  constructor
  · intro _
    simp [ColumnProperty.set_value, hro]
  · intro _ _
    simp [ColumnProperty.set_value, hro]

/-- Witness for C5: the read-only, non-nullable variant of the test cell
raises the read-only error both for `None` and for an ill-typed `42`. -/
theorem set_value_check_order_witness :
    ({ nameCell with read_only := true, nullable := false } :
        ColumnProperty).set_value PyVal.none =
      Except.error (SetError.readOnlyError "Property is read-only") ∧
    ({ nameCell with read_only := true, nullable := false } :
        ColumnProperty).set_value (PyVal.int 42) =
      Except.error (SetError.readOnlyError "Property is read-only") :=
  ⟨(set_value_check_order { nameCell with read_only := true, nullable := false }
      (PyVal.int 42) rfl).1 rfl,
   (set_value_check_order { nameCell with read_only := true, nullable := false }
      (PyVal.int 42) rfl).2 (by decide) (by decide)⟩

/-- C6 counterexample: the claimed invariant fails on a reachable state —
construction accepts `nullable=False` together with `default_value=None`,
producing a cell whose value is `None` while the cell is not nullable. -/
theorem cell_inv_counterexample :
    ∃ cp,
      ColumnProperty.init "NAME" false true false PyVal.none (Option.some PyType.str) =
        Except.ok cp ∧ ¬ cell_inv cp := by
  refine ⟨_, rfl, fun h => ?_⟩
  exact absurd (h.1 rfl) (by decide)

/-- C6 amended: the invariant is preserved by `set_value` and by
`set_owner`, and is established by construction whenever the supplied
default itself satisfies the nullability and type constraints;
construction with an invalid default is the sole way to reach a violating
state. -/
theorem cell_inv_preserved :
    (∀ cp x, cell_inv cp → cell_inv (set_value_step cp x).1) ∧
    (∀ cp o, cell_inv cp → cell_inv (cp.set_owner o)) ∧
    (∀ pid ro roca nb dv t cp,
      (dv = PyVal.none → nb = true) →
      (dv ≠ PyVal.none → isinstance dv t = true) →
      ColumnProperty.init pid ro roca nb dv (Option.some t) = Except.ok cp →
      cell_inv cp) := by
  refine ⟨?_, ?_, ?_⟩
  · intro cp x hinv
    by_cases h1 : cp.read_only = true
    · simpa [set_value_step, ColumnProperty.set_value, h1] using hinv
    · by_cases h2 : cp.nullable = false ∧ x = PyVal.none
      · simpa [set_value_step, ColumnProperty.set_value, h1, h2] using hinv
      · by_cases h3 : x ≠ PyVal.none ∧ isinstance x cp.type = false
        · simpa [set_value_step, ColumnProperty.set_value, h1, h2, h3] using hinv
        · have hfirst : x = PyVal.none → cp.nullable = true := by
            intro hx
            cases hb : cp.nullable with
            | true => rfl
            | false => exact absurd ⟨hb, hx⟩ h2
          have hsecond : x ≠ PyVal.none → isinstance x cp.type = true := by
            intro hx
            cases hi : isinstance x cp.type with
            | true => rfl
            | false => exact absurd ⟨hx, hi⟩ h3
          cases hown : cp.owner with
          | some r =>
              simp only [set_value_step, ColumnProperty.set_value, h1, h2, h3, hown,
                if_false, if_neg, cell_inv]
              exact ⟨hfirst, hsecond⟩
          | none =>
              simp only [set_value_step, ColumnProperty.set_value, h1, h2, h3, hown,
                if_false, if_neg, cell_inv]
              exact ⟨hfirst, hsecond⟩
  · intro cp o hinv
    exact hinv
  · intro pid ro roca nb dv t cp h1 h2 hok
    by_cases hp : pid = ""
    · simp [ColumnProperty.init, hp] at hok
    · simp [ColumnProperty.init, hp] at hok
      rw [← hok]
      exact ⟨h1, h2⟩

/-- Witness for the amended C6: the invariant survives a successful
`setValue('Kalle')` on the test cell. -/
theorem cell_inv_preserved_witness :
    cell_inv (set_value_step nameCell (PyVal.str "Kalle")).1 := by
  have hinv : cell_inv nameCell := by
    constructor
    · intro h
      exact absurd h (by decide)
    · intro _
      rfl
  exact cell_inv_preserved.1 nameCell (PyVal.str "Kalle") hinv

/-- C7: `set_value` is counted per successful call, not per distinct
value — on a writable cell with an attached owner, two consecutive calls
with the same valid value both succeed, each delivering exactly one
notification to the sink, and `modified` stays true. -/
theorem set_value_counts_calls (cp : ColumnProperty) (x : PyVal) (r : RowItem)
    (hro : cp.read_only = false) (hown : cp.owner = Option.some r)
    (hn : x = PyVal.none → cp.nullable = true)
    (ht : x ≠ PyVal.none → isinstance x cp.type = true) :
    ∃ cp1 cp2,
      cp.set_value x = Except.ok (cp1, [NotifArg.row r]) ∧
      cp1.set_value x = Except.ok (cp2, [NotifArg.row r]) ∧
      cp1.is_modified = true ∧ cp2.is_modified = true := by
  have h2 : ¬(cp.nullable = false ∧ x = PyVal.none) := by
    rintro ⟨ha, hb⟩
    rw [hn hb] at ha
    exact absurd ha (by decide)
  have h3 : ¬(x ≠ PyVal.none ∧ isinstance x cp.type = false) := by
    rintro ⟨ha, hb⟩
    rw [ht ha] at hb
    exact absurd hb (by decide)
  refine ⟨{ cp with value := x, modified := true },
    { cp with value := x, modified := true }, ?_, ?_, rfl, rfl⟩
  · simp [ColumnProperty.set_value, hro, h2, h3, hown, RowItem.notify_change]
  · simp [ColumnProperty.set_value, hro, h2, h3, hown, RowItem.notify_change]

/-- Witness for C7: `setValue('Kalle')` twice on the owned test cell. -/
theorem set_value_counts_calls_witness :
    ∃ cp1 cp2,
      nameCellOwned.set_value (PyVal.str "Kalle") =
        Except.ok (cp1, [NotifArg.row row0]) ∧
      cp1.set_value (PyVal.str "Kalle") = Except.ok (cp2, [NotifArg.row row0]) ∧
      cp1.is_modified = true ∧ cp2.is_modified = true := by
  have hn : PyVal.str "Kalle" = PyVal.none → nameCellOwned.nullable = true := by
    intro h
    exact absurd h (by decide)
  exact set_value_counts_calls nameCellOwned (PyVal.str "Kalle") row0 rfl rfl hn
    (fun _ => rfl)

/-- C8: construction fails with `ValueError` exactly when the id is empty
or the value type is absent; on success every supplied field is stored and
`modified = false`, `owner = None`. -/
theorem init_spec (property_id : String) (read_only : Bool)
    (read_only_change_allowed : Bool) (nullable : Bool) (default_value : PyVal)
    (value_type : Option PyType) :
    ((∃ e, ColumnProperty.init property_id read_only read_only_change_allowed
        nullable default_value value_type = Except.error e) ↔
      (property_id = "" ∨ value_type = Option.none)) ∧
    (∀ t, property_id ≠ "" → value_type = Option.some t →
      ColumnProperty.init property_id read_only read_only_change_allowed nullable
          default_value value_type =
        Except.ok
          { property_id := property_id, read_only := read_only,
            read_only_change_allowed := read_only_change_allowed,
            nullable := nullable, value := default_value, type := t,
            modified := false, owner := Option.none }) := by
  constructor
  · constructor
    · rintro ⟨e, he⟩
      by_cases hp : property_id = ""
      · exact Or.inl hp
      · cases hv : value_type with
        | none => exact Or.inr rfl
        | some t =>
            rw [hv] at he
            simp [ColumnProperty.init, hp] at he
    · rintro (hp | hv)
      · refine ⟨InitError.valueError "Property ID cannot be None", ?_⟩
        simp [ColumnProperty.init, hp]
      · by_cases hp : property_id = ""
        · refine ⟨InitError.valueError "Property ID cannot be None", ?_⟩
          simp [ColumnProperty.init, hp]
        · refine ⟨InitError.valueError "Type cannot be None", ?_⟩
          simp [ColumnProperty.init, hp, hv]
  · intro t hp hv
    simp [ColumnProperty.init, hp, hv]

/-- Witness for C8: the test scenario's constructor call stores every
field. -/
theorem init_spec_witness :
    ColumnProperty.init "NAME" false true true (PyVal.str "Ville")
        (Option.some PyType.str) =
      Except.ok
        { property_id := "NAME", read_only := false,
          read_only_change_allowed := true, nullable := true,
          value := PyVal.str "Ville", type := PyType.str,
          modified := false, owner := Option.none } :=
  (init_spec "NAME" false true true (PyVal.str "Ville")
    (Option.some PyType.str)).2 PyType.str (by decide) rfl

/-- C9: construction does not validate the default against the
nullability or type constraints — with a non-empty id and a present type,
`init` succeeds for any default whatsoever, and `get_value` then returns
that default. -/
theorem init_skips_default_validation (property_id : String) (read_only : Bool)
    (read_only_change_allowed : Bool) (nullable : Bool) (default_value : PyVal)
    (t : PyType) (hp : property_id ≠ "") :
    ∃ cp, ColumnProperty.init property_id read_only read_only_change_allowed
        nullable default_value (Option.some t) = Except.ok cp ∧
      cp.get_value = default_value := by
  refine ⟨{ property_id := property_id, read_only := read_only,
            read_only_change_allowed := read_only_change_allowed,
            nullable := nullable, value := default_value, type := t,
            modified := false, owner := Option.none }, ?_, rfl⟩
  simp [ColumnProperty.init, hp]

/-- Witness for C9: a non-nullable `str` cell constructed with default
`None` succeeds, and `get_value` returns `None`. -/
theorem init_skips_default_validation_witness :
    ∃ cp, ColumnProperty.init "AGE" false true false PyVal.none
        (Option.some PyType.str) = Except.ok cp ∧ cp.get_value = PyVal.none :=
  init_skips_default_validation "AGE" false true false PyVal.none PyType.str
    (by decide)

/-- C10: a writable cell with no owner attached is safe to mutate — for
every value satisfying the nullability and type constraints, `set_value`
succeeds, stores the value with `modified = true`, and delivers zero
notifications to any sink. -/
theorem set_value_no_owner (cp : ColumnProperty) (x : PyVal)
    (hro : cp.read_only = false) (hown : cp.owner = Option.none)
    (hn : x = PyVal.none → cp.nullable = true)
    (ht : x ≠ PyVal.none → isinstance x cp.type = true) :
    cp.set_value x = Except.ok ({ cp with value := x, modified := true }, []) := by
  have h2 : ¬(cp.nullable = false ∧ x = PyVal.none) := by
    rintro ⟨ha, hb⟩
    rw [hn hb] at ha
    exact absurd ha (by decide)
  have h3 : ¬(x ≠ PyVal.none ∧ isinstance x cp.type = false) := by
    rintro ⟨ha, hb⟩
    rw [ht ha] at hb
    exact absurd hb (by decide)
  simp [ColumnProperty.set_value, hro, h2, h3, hown]

/-- Witness for C10: the ownerless test cell accepts `setValue('Kalle')`
with an empty notification log. -/
theorem set_value_no_owner_witness :
    nameCell.set_value (PyVal.str "Kalle") =
      Except.ok ({ nameCell with value := PyVal.str "Kalle", modified := true }, []) := by
  have hn : PyVal.str "Kalle" = PyVal.none → nameCell.nullable = true := by
    intro h
    exact absurd h (by decide)
  exact set_value_no_owner nameCell (PyVal.str "Kalle") rfl rfl hn (fun _ => rfl)
